import Mathlib

/-!
Shallow embedding of the account/device lifecycle coordinator
(`gui/src/main/account.ts`, class `Account`).

State that the TypeScript class holds in fields is an explicit record
(`AccountState`); each method becomes a function from its inputs and the
state to a new state together with a list of observable effects (calls to
the cache, the scheduler, the delegate, logging and outbound IPC), in the
order the method issues them.  Asynchronous backing-service calls are
modelled by passing the resolved outcome (`Except RpcError α`) as an
argument; a rejected promise after `await` means nothing later in the
method body runs.  Timestamps are milliseconds since epoch as `Int`
(mirroring `Date.getTime()` / `Date.now()`).
-/

namespace MullvadAccount

/-- Account identifiers are opaque tokens (`AccountToken` in the source). -/
abbrev AccountToken := String

/-- `IAccountData`: the account-data record; only `expiry` is consulted by
this layer.  The source stores the expiry as an ISO string and converts it
with `new Date(expiry)`; we model it directly as the resulting
milliseconds-since-epoch timestamp. -/
structure IAccountData where
  expiry : Int
deriving DecidableEq, Repr

/-- The `accountAndDevice` payload of a logged-in device state; only the
`accountToken` field is read in `account.ts`. -/
structure AccountAndDevice where
  accountToken : AccountToken
deriving DecidableEq, Repr

/-- `DeviceState`: tagged union with cases `logged in`, `logged out`,
`revoked` (from `daemon-rpc-types`). -/
inductive DeviceState where
  | loggedIn (accountAndDevice : AccountAndDevice)
  | loggedOut
  | revoked
deriving DecidableEq, Repr

/-- `DeviceEvent`: carries the new authoritative device state. -/
structure DeviceEvent where
  deviceState : DeviceState
deriving DecidableEq, Repr

/-- The `state` discriminant of a `TunnelState` value; `account.ts` only
compares it against the literal string `connected`. -/
inductive TunnelStateType where
  | disconnected
  | connecting
  | connected
  | disconnecting
  | error
deriving DecidableEq, Repr

/-- `TunnelState` as consumed here: just its `state` discriminant. -/
structure TunnelState where
  state : TunnelStateType
deriving DecidableEq, Repr

/-- The `Scheduler` collaborator, as observed by this layer: whether a
callback is currently pending (`isRunning`). -/
structure Scheduler where
  isRunning : Bool
deriving DecidableEq, Repr

/-- `Scheduler.cancel()`: afterwards no callback is pending. -/
def Scheduler.cancel (_s : Scheduler) : Scheduler := ⟨false⟩

/-- `Scheduler.schedule(cb, delay)`: afterwards a callback is pending
(arming replaces any prior pending callback). -/
def Scheduler.schedule (_s : Scheduler) : Scheduler := ⟨true⟩

/-- The response of `daemonRpc.submitVoucher`; passed opaquely to the
cache, so only its (new-expiry) payload is modelled. -/
structure VoucherResponse where
  newExpiry : Int
deriving DecidableEq, Repr

/-- The kind of system notification handed to `delegate.notify`:
produced either by the `AccountExpiredNotificationProvider` or by the
`CloseToAccountExpiryNotificationProvider`. -/
inductive SystemNotification where
  | accountExpired
  | closeToAccountExpiry
deriving DecidableEq, Repr

/-- Observable effects a method of `Account` issues, in program order:
calls into the cache, the scheduler, the delegate, logging, and outbound
IPC emissions. -/
inductive Effect where
  | notify (n : SystemNotification)
  | cacheFetch (accountToken : AccountToken)
  | cacheInvalidate
  | cacheHandleVoucherResponse (accountToken : AccountToken) (response : VoucherResponse)
  | performPostUpgradeCheck
  | updateAccountHistory
  | setTrayContextMenu
  | notifyDeviceIpc (deviceEvent : DeviceEvent)
  | schedulerCancel
  | schedulerSchedule (delayMs : Int)
  | logError (msg : String)
  | logWarn (msg : String)
  | logInfo (msg : String)
deriving DecidableEq, Repr

/-- The mutable fields of class `Account` that the modelled methods read
or write. -/
structure AccountState where
  accountDataValue : Option IAccountData
  accountHistoryValue : Option AccountToken
  accountExpiryNotificationScheduler : Scheduler
  deviceStateValue : Option DeviceState
deriving DecidableEq, Repr

/-- Errors a backing-service (daemon RPC) call can reject with:
`InvalidAccountError` or any other error, identified by its message. -/
inductive RpcError where
  | invalidAccount
  | other (message : String)
deriving DecidableEq, Repr

/-- The `.message` of an error object. -/
def RpcError.message : RpcError → String
  | invalidAccount => "Invalid account"
  | other m => m

/-- Errors the command handlers throw to their caller: either the raw
backing-service error rethrown unchanged, or a freshly constructed
localized error (`Error(messages.gettext(...))`). -/
inductive ThrownError where
  | raw (e : RpcError)
  | localized (message : String)
deriving DecidableEq, Repr

/-- Modelled from the spec: `messages.gettext` (localization of
user-facing strings, `gui/src/shared/gettext`, not under `src/`) is out of
scope and specified only at the boundary; modelled as the identity on the
message id, so the localized text is the message id itself. -/
def gettext (msgid : String) : String := msgid

/-- Readonly environment snapshot consumed by `handleAccountExpiry`:
the wall clock (`Date.now()`), the delegate-provided tunnel state and
locale, and the decision functions of the two notification-content
providers.  The providers are external collaborators constructed from
`{accountExpiry, tunnelState}` resp. `{accountExpiry, locale}`, so their
`mayDisplay()` answers are modelled as functions of exactly those
inputs. -/
structure ExpiryEnv where
  now : Int
  tunnelState : TunnelState
  locale : String
  expiredMayDisplay : Int → TunnelState → Bool
  closeToExpiryMayDisplay : Int → String → Bool

/-- The constant `12 * 60 * 60 * 1000` from `handleAccountExpiry`. -/
def twelveHours : Int := 12 * 60 * 60 * 1000

/-- `Account.handleAccountExpiry` (account.ts:190-216): if account data is
present, evaluate the expired provider; if it may display, cancel the
schedule and notify; otherwise, if no schedule is running and the
close-to-expiry provider may display, notify and arm a schedule (whose
callback re-invokes this policy) after
`min(twelveHours, expiry - Date.now())` milliseconds. -/
def handleAccountExpiry (env : ExpiryEnv) (s : AccountState) :
    AccountState × List Effect :=
  match s.accountDataValue with
  | none => (s, [])
  | some accountData =>
    if env.expiredMayDisplay accountData.expiry env.tunnelState then
      ({ s with accountExpiryNotificationScheduler :=
          s.accountExpiryNotificationScheduler.cancel },
        [Effect.schedulerCancel, Effect.notify SystemNotification.accountExpired])
    else if !s.accountExpiryNotificationScheduler.isRunning
        && env.closeToExpiryMayDisplay accountData.expiry env.locale then
      let remainingMilliseconds := accountData.expiry - env.now
      let delay := min twelveHours remainingMilliseconds
      ({ s with accountExpiryNotificationScheduler :=
          s.accountExpiryNotificationScheduler.schedule },
        [Effect.notify SystemNotification.closeToAccountExpiry,
         Effect.schedulerSchedule delay])
    else (s, [])

/-- `Account.detectStaleAccountExpiry` (account.ts:113-121):
`hasExpired = !accountData || new Date() >= new Date(accountData.expiry)`;
if the tunnel state is connected and `hasExpired`, log and invalidate the
cache.  The state is not modified, so only the effect list is returned. -/
def detectStaleAccountExpiry (now : Int) (tunnelState : TunnelState)
    (s : AccountState) : List Effect :=
  let hasExpired : Bool :=
    match s.accountDataValue with
    | none => true
    | some accountData => decide (now ≥ accountData.expiry)
  if tunnelState.state = TunnelStateType.connected ∧ hasExpired = true then
    [Effect.logInfo ("Detected the stale account expiry."), Effect.cacheInvalidate]
  else
    []

/-- `Account.handleDeviceEvent` (account.ts:123-144): overwrite the stored
device state; if a post-upgrade check is pending (delegate flag, passed as
an argument), trigger it; branch on the new state (logged in fetches,
logged out / revoked invalidates); then initiate the account-history
refresh, request a tray refresh, and emit the outbound device IPC event. -/
def handleDeviceEvent (isPerformingPostUpgradeCheck : Bool)
    (deviceEvent : DeviceEvent) (s : AccountState) :
    AccountState × List Effect :=
  let s1 := { s with deviceStateValue := some deviceEvent.deviceState }
  let postUpgradeEffects :=
    if isPerformingPostUpgradeCheck then [Effect.performPostUpgradeCheck] else []
  let cacheEffects :=
    match deviceEvent.deviceState with
    | DeviceState.loggedIn accountAndDevice =>
      [Effect.cacheFetch accountAndDevice.accountToken]
    | DeviceState.loggedOut => [Effect.cacheInvalidate]
    | DeviceState.revoked => [Effect.cacheInvalidate]
  (s1, postUpgradeEffects ++ cacheEffects ++
    [Effect.updateAccountHistory, Effect.setTrayContextMenu,
     Effect.notifyDeviceIpc deviceEvent])

/-- Delivering a sequence of device events in order; each event comes with
the delegate post-upgrade-check flag observed at delivery time. -/
def runDeviceEvents (s : AccountState) :
    List (Bool × DeviceEvent) → AccountState
  | [] => s
  | (b, e) :: rest => runDeviceEvents (handleDeviceEvent b e s).1 rest

/-- `Account.getAccountToken` (account.ts:227-231). -/
def getAccountToken (s : AccountState) : Option AccountToken :=
  match s.deviceStateValue with
  | some (DeviceState.loggedIn accountAndDevice) =>
    some accountAndDevice.accountToken
  | _ => none

/-- `Account.isLoggedIn` (account.ts:103-105). -/
def isLoggedIn (s : AccountState) : Bool :=
  match s.deviceStateValue with
  | some (DeviceState.loggedIn _) => true
  | _ => false

/-- `Account.createNewAccount` (account.ts:152-160): forward to
`daemonRpc.createNewAccount` (its resolved outcome is the argument); on
failure log an error and rethrow unchanged. -/
def createNewAccount (rpcResult : Except RpcError AccountToken)
    (s : AccountState) :
    AccountState × List Effect × Except ThrownError AccountToken :=
  match rpcResult with
  | Except.ok newAccountToken => (s, [], Except.ok newAccountToken)
  | Except.error e =>
    (s, [Effect.logError ("Failed to create account: " ++ e.message)],
      Except.error (ThrownError.raw e))

/-- `Account.login` (account.ts:162-175): forward to
`daemonRpc.loginAccount`; on failure log an error, then throw a localized
"Invalid account number" error when the failure is an
`InvalidAccountError`, and rethrow the original error otherwise. -/
def login (rpcResult : Except RpcError Unit) (s : AccountState) :
    AccountState × List Effect × Except ThrownError Unit :=
  match rpcResult with
  | Except.ok _ => (s, [], Except.ok ())
  | Except.error e =>
    (s, [Effect.logError ("Failed to login: " ++ e.message)],
      match e with
      | RpcError.invalidAccount =>
        Except.error (ThrownError.localized (gettext ("Invalid account number")))
      | RpcError.other m =>
        Except.error (ThrownError.raw (RpcError.other m)))

/-- `Account.logout` (account.ts:177-188): forward to
`daemonRpc.logoutAccount`; on success cancel the expiry-notification
scheduler; on failure (the `await` throws before the cancel line runs)
log at info severity and rethrow unchanged. -/
def logout (rpcResult : Except RpcError Unit) (s : AccountState) :
    AccountState × List Effect × Except ThrownError Unit :=
  match rpcResult with
  | Except.ok _ =>
    ({ s with accountExpiryNotificationScheduler :=
        s.accountExpiryNotificationScheduler.cancel },
      [Effect.schedulerCancel], Except.ok ())
  | Except.error e =>
    (s, [Effect.logInfo ("Failed to logout: " ++ e.message)],
      Except.error (ThrownError.raw e))

/-- The `handleSubmitVoucher` IPC handler (account.ts:69-78): read the
current account token, await `daemonRpc.submitVoucher` (outcome passed as
argument; a rejection propagates with no further effect), then, if a
token was present, apply the optimistic cache update
`accountDataCache.handleVoucherResponse(token, response)`. -/
def handleSubmitVoucher (rpcResult : Except RpcError VoucherResponse)
    (s : AccountState) :
    AccountState × List Effect × Except ThrownError VoucherResponse :=
  let currentAccountToken := getAccountToken s
  match rpcResult with
  | Except.error e => (s, [], Except.error (ThrownError.raw e))
  | Except.ok response =>
    match currentAccountToken with
    | some accountToken =>
      (s, [Effect.cacheHandleVoucherResponse accountToken response],
        Except.ok response)
    | none => (s, [], Except.ok response)

/-! Concrete states and environments used by witnesses and the
counterexample. -/

/-- An environment whose expired provider may display and whose
close-to-expiry provider may not. -/
def envExpired : ExpiryEnv :=
  { now := 0
    tunnelState := ⟨TunnelStateType.disconnected⟩
    locale := "en"
    expiredMayDisplay := fun _ _ => true
    closeToExpiryMayDisplay := fun _ _ => false }

/-- An environment (clock at 0) whose close-to-expiry provider may
display and whose expired provider may not. -/
def envClose : ExpiryEnv :=
  { now := 0
    tunnelState := ⟨TunnelStateType.disconnected⟩
    locale := "en"
    expiredMayDisplay := fun _ _ => false
    closeToExpiryMayDisplay := fun _ _ => true }

/-- A state holding account data with expiry 90 minutes past epoch, armed
scheduler. -/
def sArmedWithData : AccountState :=
  { accountDataValue := some ⟨5400000⟩
    accountHistoryValue := none
    accountExpiryNotificationScheduler := ⟨true⟩
    deviceStateValue := none }

/-- A state holding account data with expiry 90 minutes past epoch, idle
scheduler. -/
def sIdle90 : AccountState :=
  { accountDataValue := some ⟨5400000⟩
    accountHistoryValue := none
    accountExpiryNotificationScheduler := ⟨false⟩
    deviceStateValue := none }

/-- A state holding account data with expiry 20 hours past epoch, idle
scheduler. -/
def sIdle20h : AccountState :=
  { accountDataValue := some ⟨72000000⟩
    accountHistoryValue := none
    accountExpiryNotificationScheduler := ⟨false⟩
    deviceStateValue := none }

/-- A state with no account data, armed scheduler, logged in as "1234". -/
def sNoData : AccountState :=
  { accountDataValue := none
    accountHistoryValue := none
    accountExpiryNotificationScheduler := ⟨true⟩
    deviceStateValue := some (DeviceState.loggedIn ⟨"1234"⟩) }

/-- C1: when account data is present and the expired provider may
display, `handleAccountExpiry` cancels the schedule first, then emits
exactly one expired notification, and arms no new schedule. -/
theorem handleAccountExpiry_expired (env : ExpiryEnv) (s : AccountState)
    (d : IAccountData) (hd : s.accountDataValue = some d)
    (hm : env.expiredMayDisplay d.expiry env.tunnelState = true) :
    handleAccountExpiry env s =
      ({ s with accountExpiryNotificationScheduler := ⟨false⟩ },
        [Effect.schedulerCancel, Effect.notify SystemNotification.accountExpired])
    ∧ (handleAccountExpiry env s).2.count
        (Effect.notify SystemNotification.accountExpired) = 1
    ∧ ∀ delay, Effect.schedulerSchedule delay ∉ (handleAccountExpiry env s).2 := by
  have heq : handleAccountExpiry env s =
      ({ s with accountExpiryNotificationScheduler := ⟨false⟩ },
        [Effect.schedulerCancel, Effect.notify SystemNotification.accountExpired]) := by
    simp [handleAccountExpiry, hd, hm, Scheduler.cancel]
  refine ⟨heq, ?_, ?_⟩
  · rw [heq]; simp [List.count_cons, List.count_nil]
  · intro delay; rw [heq]; simp

/-- Witness for C1 at a concrete state and environment. -/
theorem handleAccountExpiry_expired_witness :
    handleAccountExpiry envExpired sArmedWithData =
      ({ sArmedWithData with accountExpiryNotificationScheduler := ⟨false⟩ },
        [Effect.schedulerCancel, Effect.notify SystemNotification.accountExpired])
    ∧ (handleAccountExpiry envExpired sArmedWithData).2.count
        (Effect.notify SystemNotification.accountExpired) = 1
    ∧ ∀ delay, Effect.schedulerSchedule delay ∉
        (handleAccountExpiry envExpired sArmedWithData).2 :=
  handleAccountExpiry_expired envExpired sArmedWithData ⟨5400000⟩ rfl rfl

/-- C2: when account data is present, the expired provider may not
display and the close-to-expiry provider may, `handleAccountExpiry` with
an idle scheduler emits one expiring-soon notification and arms a
schedule for `min(12h, expiry - now)` milliseconds; with an armed
scheduler it does nothing. -/
theorem handleAccountExpiry_closeToExpiry (env : ExpiryEnv) (s : AccountState)
    (d : IAccountData) (hd : s.accountDataValue = some d)
    (hexp : env.expiredMayDisplay d.expiry env.tunnelState = false)
    (hclose : env.closeToExpiryMayDisplay d.expiry env.locale = true) :
    (s.accountExpiryNotificationScheduler.isRunning = false →
      handleAccountExpiry env s =
        ({ s with accountExpiryNotificationScheduler := ⟨true⟩ },
          [Effect.notify SystemNotification.closeToAccountExpiry,
           Effect.schedulerSchedule (min twelveHours (d.expiry - env.now))]))
    ∧ (s.accountExpiryNotificationScheduler.isRunning = true →
      handleAccountExpiry env s = (s, [])) := by
  constructor
  · intro hrun
    simp [handleAccountExpiry, hd, hexp, hclose, hrun, Scheduler.schedule]
  · intro hrun
    simp [handleAccountExpiry, hd, hexp, hrun]

/-- Witness for C2: expiry 90 minutes out gives a 90-minute delay, expiry
20 hours out gives a 12-hour delay, and an armed scheduler suppresses
both the notification and the re-arming. -/
theorem handleAccountExpiry_closeToExpiry_witness :
    handleAccountExpiry envClose sIdle90 =
      ({ sIdle90 with accountExpiryNotificationScheduler := ⟨true⟩ },
        [Effect.notify SystemNotification.closeToAccountExpiry,
         Effect.schedulerSchedule 5400000])
    ∧ handleAccountExpiry envClose sIdle20h =
      ({ sIdle20h with accountExpiryNotificationScheduler := ⟨true⟩ },
        [Effect.notify SystemNotification.closeToAccountExpiry,
         Effect.schedulerSchedule 43200000])
    ∧ handleAccountExpiry envClose sArmedWithData = (sArmedWithData, []) := by
  refine ⟨?_, ?_, ?_⟩
  · have h :=
      (handleAccountExpiry_closeToExpiry envClose sIdle90 ⟨5400000⟩ rfl rfl rfl).1 rfl
    rw [h]; norm_num [envClose, twelveHours]
  · have h :=
      (handleAccountExpiry_closeToExpiry envClose sIdle20h ⟨72000000⟩ rfl rfl rfl).1 rfl
    rw [h]; norm_num [envClose, twelveHours]
  · exact
      (handleAccountExpiry_closeToExpiry envClose sArmedWithData ⟨5400000⟩ rfl rfl rfl).2 rfl

/-- C3: `detectStaleAccountExpiry` issues a cache invalidate iff the
tunnel is connected and (no account data is stored or the stored expiry
is at or before the current time); when the tunnel is not connected it
does nothing at all. -/
theorem detectStaleAccountExpiry_iff (now : Int) (tunnelState : TunnelState)
    (s : AccountState) :
    (Effect.cacheInvalidate ∈ detectStaleAccountExpiry now tunnelState s ↔
      tunnelState.state = TunnelStateType.connected ∧
        (s.accountDataValue = none ∨
          ∃ d, s.accountDataValue = some d ∧ d.expiry ≤ now))
    ∧ (tunnelState.state ≠ TunnelStateType.connected →
        detectStaleAccountExpiry now tunnelState s = []) := by
  constructor
  · rcases hsd : s.accountDataValue with _ | d
    · by_cases hc : tunnelState.state = TunnelStateType.connected <;>
        simp [detectStaleAccountExpiry, hsd, hc]
    · by_cases hc : tunnelState.state = TunnelStateType.connected <;>
        by_cases he : now ≥ d.expiry <;>
          simp [detectStaleAccountExpiry, hsd, hc, he]
  · intro hc
    rcases hsd : s.accountDataValue with _ | d <;>
      simp [detectStaleAccountExpiry, hsd, hc]

/-- Witness for C3: with no stored account data, a connected tunnel
triggers the invalidate and a disconnected tunnel triggers nothing. -/
theorem detectStaleAccountExpiry_iff_witness :
    Effect.cacheInvalidate ∈
      detectStaleAccountExpiry 100 ⟨TunnelStateType.connected⟩ sNoData
    ∧ detectStaleAccountExpiry 100 ⟨TunnelStateType.disconnected⟩ sNoData = [] := by
  constructor
  · exact (detectStaleAccountExpiry_iff 100 ⟨TunnelStateType.connected⟩ sNoData).1.2
      ⟨rfl, Or.inl rfl⟩
  · exact (detectStaleAccountExpiry_iff 100 ⟨TunnelStateType.disconnected⟩ sNoData).2
      (by decide)

/-- C4: after any nonempty sequence of device events, the stored device
state equals the state carried by the most recently delivered event
(unconditional last-write-wins overwrite). -/
theorem handleDeviceEvent_lastWriteWins (s : AccountState)
    (events : List (Bool × DeviceEvent)) (b : Bool) (e : DeviceEvent) :
    (runDeviceEvents s (events ++ [(b, e)])).deviceStateValue =
      some e.deviceState := by
  induction events generalizing s with
  | nil => rfl
  | cons p rest ih =>
    obtain ⟨pb, pe⟩ := p
    exact ih _

/-- C5: a logged-in device event issues exactly one cache fetch for its
account token and no invalidate; logged-out and revoked events each issue
exactly one invalidate and no fetch; in every case the cache operation
precedes the account-history refresh in the issued effect sequence. -/
theorem handleDeviceEvent_cacheEffects (b : Bool) (ad : AccountAndDevice)
    (s : AccountState) :
    ((handleDeviceEvent b ⟨DeviceState.loggedIn ad⟩ s).2.count
        (Effect.cacheFetch ad.accountToken) = 1
      ∧ (handleDeviceEvent b ⟨DeviceState.loggedIn ad⟩ s).2.count
          Effect.cacheInvalidate = 0
      ∧ List.Sublist [Effect.cacheFetch ad.accountToken, Effect.updateAccountHistory]
          (handleDeviceEvent b ⟨DeviceState.loggedIn ad⟩ s).2)
    ∧ ((handleDeviceEvent b ⟨DeviceState.loggedOut⟩ s).2.count
          Effect.cacheInvalidate = 1
      ∧ (∀ t, (handleDeviceEvent b ⟨DeviceState.loggedOut⟩ s).2.count
          (Effect.cacheFetch t) = 0)
      ∧ List.Sublist [Effect.cacheInvalidate, Effect.updateAccountHistory]
          (handleDeviceEvent b ⟨DeviceState.loggedOut⟩ s).2)
    ∧ ((handleDeviceEvent b ⟨DeviceState.revoked⟩ s).2.count
          Effect.cacheInvalidate = 1
      ∧ (∀ t, (handleDeviceEvent b ⟨DeviceState.revoked⟩ s).2.count
          (Effect.cacheFetch t) = 0)
      ∧ List.Sublist [Effect.cacheInvalidate, Effect.updateAccountHistory]
          (handleDeviceEvent b ⟨DeviceState.revoked⟩ s).2) := by
  have hsub : ∀ (x : Effect) (rest : List Effect),
      List.Sublist [x, Effect.updateAccountHistory]
        (x :: Effect.updateAccountHistory :: rest) :=
    fun x rest =>
      ((List.nil_sublist rest).cons₂ Effect.updateAccountHistory).cons₂ x
  cases b <;>
    refine ⟨⟨?_, ?_, ?_⟩, ⟨?_, fun t => ?_, ?_⟩, ⟨?_, fun t => ?_, ?_⟩⟩ <;>
      first
        | exact hsub _ _
        | exact (hsub _ _).cons Effect.performPostUpgradeCheck
        | simp [handleDeviceEvent, List.count_cons, List.count_nil]

/-- C6 counterexample: when `daemonRpc.logoutAccount` rejects, `logout`
does NOT cancel the armed expiry-notification schedule — the `await`
throws before the cancel line runs, so the schedule stays armed and no
cancel call is issued; hence cancellation is not unconditional. -/
theorem logout_failure_keeps_schedule :
    (logout (Except.error (RpcError.other ("network error")))
        sArmedWithData).1.accountExpiryNotificationScheduler.isRunning = true
    ∧ Effect.schedulerCancel ∉
        (logout (Except.error (RpcError.other ("network error")))
          sArmedWithData).2.1 := by
  constructor
  · rfl
  · simp [logout]

/-- C6 (amended): `logout` cancels the armed expiry-notification schedule
exactly when the backing-service call succeeds; on failure the schedule
is left untouched and the error is logged at info severity and rethrown
unchanged. -/
theorem logout_cancel_on_success (s : AccountState) (e : RpcError) :
    logout (Except.ok ()) s =
      ({ s with accountExpiryNotificationScheduler := ⟨false⟩ },
        [Effect.schedulerCancel], Except.ok ())
    ∧ logout (Except.error e) s =
      (s, [Effect.logInfo ("Failed to logout: " ++ e.message)],
        Except.error (ThrownError.raw e)) :=
  ⟨rfl, rfl⟩

/-- C7: `login` maps an invalid-account failure to the localized
"Invalid account number" error, rethrows every other failure unchanged,
and resolves without error on success. -/
theorem login_error_translation (s : AccountState) (m : String) :
    login (Except.error RpcError.invalidAccount) s =
      (s, [Effect.logError ("Failed to login: " ++ RpcError.invalidAccount.message)],
        Except.error (ThrownError.localized ("Invalid account number")))
    ∧ login (Except.error (RpcError.other m)) s =
      (s, [Effect.logError ("Failed to login: " ++ m)],
        Except.error (ThrownError.raw (RpcError.other m)))
    ∧ login (Except.ok ()) s = (s, [], Except.ok ()) :=
  ⟨rfl, rfl, rfl⟩

/-- C8: a successful voucher submission while logged in with token `X`
applies exactly the optimistic cache update `handleVoucherResponse(X,
response)` and issues no cache fetch. -/
theorem handleSubmitVoucher_optimistic (s : AccountState)
    (ad : AccountAndDevice) (r : VoucherResponse)
    (h : s.deviceStateValue = some (DeviceState.loggedIn ad)) :
    handleSubmitVoucher (Except.ok r) s =
      (s, [Effect.cacheHandleVoucherResponse ad.accountToken r], Except.ok r)
    ∧ ∀ t, Effect.cacheFetch t ∉ (handleSubmitVoucher (Except.ok r) s).2.1 := by
  have hg : getAccountToken s = some ad.accountToken := by
    simp [getAccountToken, h]
  constructor
  · simp [handleSubmitVoucher, hg]
  · intro t
    simp [handleSubmitVoucher, hg]

/-- Witness for C8 at a concrete logged-in state. -/
theorem handleSubmitVoucher_optimistic_witness :
    handleSubmitVoucher (Except.ok ⟨99⟩) sNoData =
      (sNoData, [Effect.cacheHandleVoucherResponse "1234" ⟨99⟩], Except.ok ⟨99⟩)
    ∧ ∀ t, Effect.cacheFetch t ∉ (handleSubmitVoucher (Except.ok ⟨99⟩) sNoData).2.1 :=
  handleSubmitVoucher_optimistic sNoData ⟨"1234"⟩ ⟨99⟩ rfl

/-- C9: none of the user command handlers `createNewAccount`, `login`,
`logout` modifies the stored device state, whether the backing-service
call succeeds or fails. -/
theorem commands_preserve_deviceState (s : AccountState)
    (r1 : Except RpcError AccountToken) (r2 r3 : Except RpcError Unit) :
    (createNewAccount r1 s).1.deviceStateValue = s.deviceStateValue
    ∧ (login r2 s).1.deviceStateValue = s.deviceStateValue
    ∧ (logout r3 s).1.deviceStateValue = s.deviceStateValue :=
  ⟨by cases r1 <;> rfl, by cases r2 <;> rfl, by cases r3 <;> rfl⟩

/-- C10: when no account data is stored, `handleAccountExpiry` is a
no-op: no notification, no cancel, no new schedule — the state, in
particular a previously armed schedule, is left exactly as it was. -/
theorem handleAccountExpiry_noData (env : ExpiryEnv) (s : AccountState)
    (h : s.accountDataValue = none) :
    handleAccountExpiry env s = (s, [])
    ∧ (handleAccountExpiry env s).1.accountExpiryNotificationScheduler.isRunning =
        s.accountExpiryNotificationScheduler.isRunning := by
  have heq : handleAccountExpiry env s = (s, []) := by
    simp [handleAccountExpiry, h]
  exact ⟨heq, by rw [heq]⟩

/-- Witness for C10: an armed schedule survives an invocation with absent
account data. -/
theorem handleAccountExpiry_noData_witness :
    handleAccountExpiry envExpired sNoData = (sNoData, [])
    ∧ (handleAccountExpiry envExpired sNoData).1.accountExpiryNotificationScheduler.isRunning =
        sNoData.accountExpiryNotificationScheduler.isRunning :=
  handleAccountExpiry_noData envExpired sNoData rfl

end MullvadAccount
